import Mathlib

/-!
Verification of the HubSpot CRM integration module
(`backend/integrations/hubspot.py`).

The module drives an OAuth2 authorization-code flow: it builds an
authorization URL carrying a base64url-encoded JSON state blob, validates
that state in the callback, exchanges the code for tokens, caches and
refreshes credentials in Redis, and normalizes HubSpot contacts, companies
and deals into a generic item shape.

The shallow embedding below models the pure computations of the module
directly (base64url, JSON serialization of the state blob, display-name
construction, expiry arithmetic) and models the effectful parts (Redis,
HTTP calls, clock reads) by passing the cache contents, the HTTP call
outcomes and the clock values as explicit arguments and returning the
performed writes/calls explicitly.  JSON (de)serialization of the
credential record between the accessor and the cache is modelled as the
identity on structured records; the state blob, whose byte-level identity
the spec talks about, is kept as a character string.  Text is modelled at
the level of Unicode code points; the UTF-8 byte encoding step is modelled
for ASCII payloads (each code point below 128 is one byte), which covers
every theorem stated here.
-/

/-- Python truthiness of an optional string (`None` and `''` are falsy). -/
def truthyStr : Option String → Bool
  | none => false
  | some s => s ≠ ""

/-- Python truthiness of an optional integer (`None` and `0` are falsy). -/
def truthyInt : Option Int → Bool
  | none => false
  | some n => n ≠ 0

/-- Python `str(x)` for an optional string, as used by f-string
interpolation: `None` renders as `"None"`. -/
def optStr : Option String → String
  | none => "None"
  | some s => s

/-- The bytes of an ASCII string: one byte per code point.  Agrees with
Python `str.encode('utf-8')` whenever every code point is below 128. -/
def strBytes (s : String) : List Nat :=
  s.data.map Char.toNat

/-- The base64url character of a six-bit group (RFC 4648 §5 alphabet,
as used by Python `base64.urlsafe_b64encode`). -/
def encodeChar6 (n : Nat) : Char :=
  if n < 26 then Char.ofNat (65 + n)
  else if n < 52 then Char.ofNat (97 + (n - 26))
  else if n < 62 then Char.ofNat (48 + (n - 52))
  else if n = 62 then '-'
  else '_'

/-- The six-bit value of a base64url character, `none` for a character
outside the RFC 4648 §5 alphabet. -/
def decodeChar6 (c : Char) : Option Nat :=
  if 65 ≤ c.toNat ∧ c.toNat ≤ 90 then some (c.toNat - 65)
  else if 97 ≤ c.toNat ∧ c.toNat ≤ 122 then some (26 + (c.toNat - 97))
  else if 48 ≤ c.toNat ∧ c.toNat ≤ 57 then some (52 + (c.toNat - 48))
  else if c = '-' then some 62
  else if c = '_' then some 63
  else none

/-- base64url encoding of a byte list, with `=` padding, as produced by
Python `base64.urlsafe_b64encode`. -/
def encodeB64 : List Nat → List Char
  | [] => []
  | [a] =>
      [encodeChar6 (a / 4), encodeChar6 (a % 4 * 16), '=', '=']
  | [a, b] =>
      [encodeChar6 (a / 4), encodeChar6 (a % 4 * 16 + b / 16),
       encodeChar6 (b % 16 * 4), '=']
  | a :: b :: c :: rest =>
      encodeChar6 (a / 4) :: encodeChar6 (a % 4 * 16 + b / 16) ::
      encodeChar6 (b % 16 * 4 + c / 64) :: encodeChar6 (c % 64) ::
      encodeB64 rest

/-- Decoding of the final (possibly padded) four-character base64 group. -/
def decodeGroup (c1 c2 c3 c4 : Char) : Option (List Nat) :=
  (decodeChar6 c1).bind fun s1 =>
  (decodeChar6 c2).bind fun s2 =>
  if c3 = '=' then
    if c4 = '=' ∧ s2 % 16 = 0 then some [s1 * 4 + s2 / 16] else none
  else
    (decodeChar6 c3).bind fun s3 =>
    if c4 = '=' then
      if s3 % 4 = 0 then some [s1 * 4 + s2 / 16, s2 % 16 * 16 + s3 / 4]
      else none
    else
      (decodeChar6 c4).bind fun s4 =>
      some [s1 * 4 + s2 / 16, s2 % 16 * 16 + s3 / 4, s3 % 4 * 64 + s4]

/-- base64url decoding of a character list (strict four-character groups,
padding allowed only in the final group), `none` on malformed input. -/
def decodeB64 : List Char → Option (List Nat)
  | [] => some []
  | c1 :: c2 :: c3 :: c4 :: rest =>
    if rest = [] then decodeGroup c1 c2 c3 c4
    else
      (decodeChar6 c1).bind fun s1 =>
      (decodeChar6 c2).bind fun s2 =>
      (decodeChar6 c3).bind fun s3 =>
      (decodeChar6 c4).bind fun s4 =>
      (decodeB64 rest).bind fun tail =>
      some ((s1 * 4 + s2 / 16) :: (s2 % 16 * 16 + s3 / 4) ::
            (s3 % 4 * 64 + s4) :: tail)
  | _ => none

theorem decodeChar6_encodeChar6 : ∀ n, n < 64 → decodeChar6 (encodeChar6 n) = some n := by
  decide

theorem encodeChar6_ne_pad : ∀ n, n < 64 → encodeChar6 n ≠ '=' := by
  decide

theorem encodeB64_eq_nil : ∀ l : List Nat, encodeB64 l = [] ↔ l = [] := by
  intro l
  match l with
  | [] => simp [encodeB64]
  | [a] => simp [encodeB64]
  | [a, b] => simp [encodeB64]
  | a :: b :: c :: rest => simp [encodeB64]

/-- Round trip: decoding the base64url encoding of any byte list recovers
the byte list. -/
theorem decodeB64_encodeB64 :
    ∀ l : List Nat, (∀ b ∈ l, b < 256) → decodeB64 (encodeB64 l) = some l
  | [], _ => rfl
  | [a], h => by
      have ha : a < 256 := h a (by simp)
      show decodeGroup (encodeChar6 (a / 4)) (encodeChar6 (a % 4 * 16)) '=' '='
            = some [a]
      unfold decodeGroup
      rw [decodeChar6_encodeChar6 (a / 4) (by omega),
          decodeChar6_encodeChar6 (a % 4 * 16) (by omega)]
      simp only [Option.some_bind, if_true, true_and]
      rw [if_pos (show a % 4 * 16 % 16 = 0 by omega)]
      simp only [Option.some.injEq, List.cons.injEq, and_true]
      omega
  | [a, b], h => by
      have ha : a < 256 := h a (by simp)
      have hb : b < 256 := h b (by simp)
      show decodeGroup (encodeChar6 (a / 4)) (encodeChar6 (a % 4 * 16 + b / 16))
             (encodeChar6 (b % 16 * 4)) '=' = some [a, b]
      unfold decodeGroup
      rw [decodeChar6_encodeChar6 (a / 4) (by omega),
          decodeChar6_encodeChar6 (a % 4 * 16 + b / 16) (by omega),
          decodeChar6_encodeChar6 (b % 16 * 4) (by omega)]
      simp only [Option.some_bind]
      rw [if_neg (encodeChar6_ne_pad (b % 16 * 4) (by omega))]
      simp only [if_true]
      rw [if_pos (show b % 16 * 4 % 4 = 0 by omega)]
      simp only [Option.some.injEq, List.cons.injEq, and_true]
      omega
  | a :: b :: c :: rest, h => by
      have ha : a < 256 := h a (by simp)
      have hb : b < 256 := h b (by simp)
      have hc : c < 256 := h c (by simp)
      have hrest : ∀ x ∈ rest, x < 256 := fun x hx => h x (by simp [hx])
      have ih := decodeB64_encodeB64 rest hrest
      show decodeB64 (encodeChar6 (a / 4) :: encodeChar6 (a % 4 * 16 + b / 16) ::
             encodeChar6 (b % 16 * 4 + c / 64) :: encodeChar6 (c % 64) ::
             encodeB64 rest) = some (a :: b :: c :: rest)
      by_cases hrnil : rest = []
      · subst hrnil
        show decodeGroup (encodeChar6 (a / 4)) (encodeChar6 (a % 4 * 16 + b / 16))
               (encodeChar6 (b % 16 * 4 + c / 64)) (encodeChar6 (c % 64))
             = some [a, b, c]
        unfold decodeGroup
        rw [decodeChar6_encodeChar6 (a / 4) (by omega),
            decodeChar6_encodeChar6 (a % 4 * 16 + b / 16) (by omega),
            decodeChar6_encodeChar6 (b % 16 * 4 + c / 64) (by omega),
            decodeChar6_encodeChar6 (c % 64) (by omega)]
        simp only [Option.some_bind]
        rw [if_neg (encodeChar6_ne_pad (b % 16 * 4 + c / 64) (by omega)),
            if_neg (encodeChar6_ne_pad (c % 64) (by omega))]
        simp only [Option.some.injEq, List.cons.injEq, and_true]
        refine ⟨by omega, by omega, by omega⟩
      · rw [decodeB64]
        rw [if_neg (fun hnil => hrnil ((encodeB64_eq_nil rest).mp hnil))]
        rw [decodeChar6_encodeChar6 (a / 4) (by omega),
            decodeChar6_encodeChar6 (a % 4 * 16 + b / 16) (by omega),
            decodeChar6_encodeChar6 (b % 16 * 4 + c / 64) (by omega),
            decodeChar6_encodeChar6 (c % 64) (by omega)]
        rw [ih]
        simp only [Option.some_bind, Option.some.injEq, List.cons.injEq, and_true]
        refine ⟨by omega, by omega, by omega⟩

/-- One lowercase hexadecimal digit. -/
def hexDigit (n : Nat) : Char :=
  if n < 10 then Char.ofNat (48 + n) else Char.ofNat (87 + n)

/-- Four-digit hexadecimal rendering, as in a JSON `\uXXXX` escape. -/
def hex4 (n : Nat) : String :=
  String.mk [hexDigit (n / 4096 % 16), hexDigit (n / 256 % 16),
             hexDigit (n / 16 % 16), hexDigit (n % 16)]

/-- Escaping of one character by Python `json.dumps` (default
`ensure_ascii=True`): `"` and `\` and the C0 control characters are
escaped, every code point at or above 127 becomes a `\uXXXX` escape
(a surrogate pair above U+FFFF), and the printable ASCII range passes
through unchanged.  Characters are compared by code point. -/
def jsonEscapeChar (c : Char) : String :=
  if c.toNat = 34 then "\\\""
  else if c.toNat = 92 then "\\\\"
  else if c.toNat = 8 then "\\b"
  else if c.toNat = 9 then "\\t"
  else if c.toNat = 10 then "\\n"
  else if c.toNat = 12 then "\\f"
  else if c.toNat = 13 then "\\r"
  else if c.toNat < 32 ∨ 127 ≤ c.toNat then
    if c.toNat < 65536 then "\\u" ++ hex4 c.toNat
    else "\\u" ++ hex4 (55296 + (c.toNat - 65536) / 1024)
         ++ "\\u" ++ hex4 (56320 + (c.toNat - 65536) % 1024)
  else String.singleton c

/-- `json.dumps` escaping applied to a character list. -/
def jsonEscapeList (l : List Char) : List Char :=
  l.flatMap fun c => (jsonEscapeChar c).data

/-- `json.dumps` rendering of a string value, quotes included. -/
def jsonDumpsStr (s : String) : String :=
  "\"" ++ String.mk (jsonEscapeList s.data) ++ "\""

/-- A character that `json.dumps` renders as itself: printable ASCII other
than `"` and `\`. -/
def plainChar (c : Char) : Bool :=
  32 ≤ c.toNat && c.toNat < 127 && c.toNat ≠ 34 && c.toNat ≠ 92

/-- A string every character of which `json.dumps` renders as itself. -/
def plainStr (s : String) : Bool :=
  s.data.all plainChar

theorem jsonEscapeChar_plain (c : Char) (h : plainChar c = true) :
    jsonEscapeChar c = String.singleton c := by
  unfold plainChar at h
  simp only [Bool.and_eq_true, decide_eq_true_eq, ne_eq, decide_not,
    Bool.not_eq_eq_eq_not, Bool.not_true, decide_eq_false_iff_not] at h
  obtain ⟨⟨⟨h1, h2⟩, h3⟩, h4⟩ := h
  unfold jsonEscapeChar
  repeat rw [if_neg (by omega)]

theorem jsonEscapeList_plain :
    ∀ l : List Char, l.all plainChar = true → jsonEscapeList l = l := by
  intro l hl
  induction l with
  | nil => rfl
  | cons c cs ih =>
      simp only [List.all_cons, Bool.and_eq_true] at hl
      simp only [jsonEscapeList, List.flatMap_cons]
      rw [jsonEscapeChar_plain c hl.1]
      have := ih hl.2
      simp only [jsonEscapeList] at this
      rw [this]
      rfl

/-- The state blob built by `authorize_hubspot`:
`{'state': nonce, 'user_id': ..., 'org_id': ...}` (Python dict in insertion
order). -/
structure StateData where
  state : String
  user_id : String
  org_id : String

/-- `json.dumps(state_data)` with the default separators. -/
def jsonDumpsStateData (d : StateData) : String :=
  "\x7b\"state\": " ++ jsonDumpsStr d.state
    ++ ", \"user_id\": " ++ jsonDumpsStr d.user_id
    ++ ", \"org_id\": " ++ jsonDumpsStr d.org_id ++ "\x7d"

-- HubSpot OAuth2 configuration constants of the module.
def CLIENT_ID : String := ""
def CLIENT_SECRET : String := ""
def REDIRECT_URI : String := ""

/-- Required scopes for HubSpot API access. -/
def SCOPES : List String :=
  ["crm.objects.contacts.read", "crm.objects.companies.read",
   "crm.objects.deals.read"]

/-- One Redis `set` with a TTL, as performed by `add_key_value_redis`. -/
structure CacheWrite where
  key : String
  value : String
  expire : Nat

/-- What `authorize_hubspot` produces: the returned authorization URL and
the Redis write of the state blob it performs.  The random
`secrets.token_urlsafe(32)` nonce is passed in as an argument. -/
structure AuthorizeResult where
  auth_url : String
  stateWrite : CacheWrite

def authorize_hubspot (user_id org_id nonce : String) : AuthorizeResult :=
  let state_data : StateData := ⟨nonce, user_id, org_id⟩
  let encoded_state :=
    String.mk (encodeB64 (strBytes (jsonDumpsStateData state_data)))
  ⟨"https://app.hubspot.com/oauth/authorize?client_id=" ++ CLIENT_ID
      ++ "&redirect_uri=" ++ REDIRECT_URI
      ++ "&scope=" ++ String.intercalate " " SCOPES
      ++ "&state=" ++ encoded_state,
   ⟨"hubspot_state:" ++ org_id ++ ":" ++ user_id,
    jsonDumpsStateData state_data, 600⟩⟩

/-- Skip JSON whitespace (space, tab, newline, carriage return). -/
def skipWs : List Char → List Char
  | c :: rest =>
      if c = ' ' ∨ c = '\t' ∨ c = '\n' ∨ c = '\r' then skipWs rest
      else c :: rest
  | [] => []

/-- Parse a JSON string literal, returning the string and the remaining
input.  Escape sequences are not modelled: a backslash fails the parse. -/
def parseJsonString : List Char → Option (String × List Char)
  | '"' :: rest => go rest []
  | _ => none
where
  go : List Char → List Char → Option (String × List Char)
    | [], _ => none
    | c :: rest, acc =>
        if c = '"' then some (String.mk acc.reverse, rest)
        else if c = '\\' then none
        else go rest (c :: acc)

/-- Parse the entries of a flat JSON object of string keys and string
values, after the opening brace; `fuel` bounds the recursion. -/
def parseJsonEntries : Nat → List Char → List (String × String) →
    Option (List (String × String))
  | 0, _, _ => none
  | fuel + 1, input, acc =>
    match parseJsonString (skipWs input) with
    | none => none
    | some (k, rest1) =>
      match skipWs rest1 with
      | ':' :: rest2 =>
        match parseJsonString (skipWs rest2) with
        | none => none
        | some (v, rest3) =>
          match skipWs rest3 with
          | ',' :: rest4 => parseJsonEntries fuel rest4 ((k, v) :: acc)
          | '\x7d' :: rest5 =>
              if skipWs rest5 = [] then some (((k, v) :: acc).reverse)
              else none
          | _ => none
      | _ => none

/-- Python `json.loads`, restricted to the fragment this module's state
blobs live in: a flat object of string keys and string values.  Payloads
outside the fragment (escape sequences, nested or non-string values,
non-object documents) are modelled as a parse failure; every theorem
below about a successful parse stays inside the fragment, where
`json.loads` agrees. -/
def parseJsonStrObj (s : String) : Option (List (String × String)) :=
  match skipWs s.data with
  | '\x7b' :: rest =>
      match skipWs rest with
      | '\x7d' :: rest2 => if skipWs rest2 = [] then some [] else none
      | _ => parseJsonEntries (rest.length + 1) rest []
  | _ => none

/-- Python `dict.get` on a parsed JSON object (later duplicate keys
overwrite earlier ones, as in `json.loads`). -/
def objGet (obj : List (String × String)) (k : String) : Option String :=
  obj.reverse.lookup k

/-- `bytes.decode('utf-8')`, modelled for ASCII payloads: any byte at or
above 128 is modelled as a decode failure. -/
def utf8DecodeAscii (l : List Nat) : Option String :=
  if l.all (· < 128) then some (String.mk (l.map Char.ofNat)) else none

/-- A credential record: the JSON object exchanged with the HubSpot token
endpoint and stored in Redis.  `other` carries any further provider
fields, so that storing or returning a record "verbatim"/"unchanged" is
meaningful.  JSON (de)serialization between the accessor and the cache is
modelled as the identity on records. -/
structure Credentials where
  access_token : Option String
  refresh_token : Option String
  expires_in : Option Int
  created_at : Option Int
  other : List (String × String)
deriving DecidableEq

/-- One Redis `set` of a credential record with a TTL. -/
structure CredWrite where
  key : String
  tokens : Credentials
  expire : Nat
deriving DecidableEq

/-- The query parameters of the OAuth2 callback request. -/
structure CallbackRequest where
  error : Option String
  error_description : Option String
  code : Option String
  state : Option String

/-- How the callback handler terminates: an `HTTPException`, the
self-closing HTML page, or an exception the handler does not catch. -/
inductive CbStatus where
  | httpError (status : Nat) (detail : String)
  | ok
  | pyError (msg : String)
deriving DecidableEq

/-- The callback handler's outcome together with its observable effects:
whether the code-for-token POST was issued, the credential write and the
state-key delete it performed. -/
structure CallbackResult where
  status : CbStatus
  exchanged : Bool
  credWrite : Option CredWrite
  stateDeleted : Option String
deriving DecidableEq

/-- `oauth2callback_hubspot`.  `cache` is the Redis content (`get_value_redis`),
`exchange` the outcome of the code-for-token POST: `.error` for an
`httpx.HTTPError`, `.ok` for the parsed token response. -/
def oauth2callback_hubspot (request : CallbackRequest)
    (cache : String → Option String)
    (exchange : Except Unit Credentials) : CallbackResult :=
  if request.error.isSome then
    ⟨.httpError 400 "HubSpot OAuth error", false, none, none⟩
  else if ¬ (truthyStr request.code ∧ truthyStr request.state) then
    ⟨.httpError 400 "Missing required parameters: code or state", false, none, none⟩
  else
    match ((decodeB64 (request.state.getD "").data).bind utf8DecodeAscii).bind
            parseJsonStrObj with
    | none => ⟨.httpError 400 "Invalid state parameter", false, none, none⟩
    | some state_data =>
      match cache ("hubspot_state:" ++ optStr (objGet state_data "org_id")
                    ++ ":" ++ optStr (objGet state_data "user_id")) with
      | none => ⟨.httpError 400 "State validation failed", false, none, none⟩
      | some saved_state =>
        if saved_state = "" then
          ⟨.httpError 400 "State validation failed", false, none, none⟩
        else
          match parseJsonStrObj saved_state with
          | none => ⟨.pyError "json.loads(saved_state) raised", false, none, none⟩
          | some saved =>
            if objGet state_data "state" ≠ objGet saved "state" then
              ⟨.httpError 400 "State validation failed", false, none, none⟩
            else
              match exchange with
              | .error _ =>
                  ⟨.httpError 400 "Failed to exchange code for tokens", true, none, none⟩
              | .ok tokens =>
                  ⟨.ok, true,
                   some ⟨"hubspot_credentials:" ++ optStr (objGet state_data "org_id")
                           ++ ":" ++ optStr (objGet state_data "user_id"),
                         tokens, 3600⟩,
                   some ("hubspot_state:" ++ optStr (objGet state_data "org_id")
                           ++ ":" ++ optStr (objGet state_data "user_id"))⟩

/-- How `get_hubspot_credentials` terminates: the returned record, an
`HTTPException`, or an exception it does not catch (the bare
`credentials['refresh_token']` lookup). -/
inductive CredStatus where
  | ok (c : Credentials)
  | httpError (status : Nat) (detail : String)
  | pyError (msg : String)
deriving DecidableEq

/-- The accessor's outcome with its observable effects: how many refresh
POSTs it issued and the credential write it performed. -/
structure CredAccessResult where
  result : CredStatus
  refreshCalls : Nat
  write : Option CredWrite
deriving DecidableEq

/-- `get_hubspot_credentials`.  `cache` is the Redis content, `now` the
`int(time.time())` read at the expiry check, `refresh` the outcome of a
refresh POST were one issued, and `now2` the `int(time.time())` read when
stamping `created_at` on the refreshed record. -/
def get_hubspot_credentials (user_id org_id : String)
    (cache : String → Option Credentials)
    (now : Int) (refresh : Except Unit Credentials) (now2 : Int) :
    CredAccessResult :=
  match cache ("hubspot_credentials:" ++ org_id ++ ":" ++ user_id) with
  | none =>
      ⟨.httpError 400 "No HubSpot credentials found. Please reauthorize the integration.",
       0, none⟩
  | some credentials =>
    if truthyInt credentials.expires_in ∧ truthyInt credentials.created_at then
      if now ≥ credentials.created_at.getD 0 + credentials.expires_in.getD 0 then
        match credentials.refresh_token with
        | none => ⟨.pyError "KeyError: refresh_token", 0, none⟩
        | some _ =>
          match refresh with
          | .error _ => ⟨.httpError 400 "Failed to refresh HubSpot token", 1, none⟩
          | .ok fresh =>
              let new_tokens : Credentials := { fresh with created_at := some now2 }
              ⟨.ok new_tokens, 1,
               some ⟨"hubspot_credentials:" ++ org_id ++ ":" ++ user_id,
                     new_tokens, 3600⟩⟩
      else ⟨.ok credentials, 0, none⟩
    else ⟨.ok credentials, 0, none⟩

/-- A HubSpot CRM record as returned by the list endpoints: its id, its
`properties` object (string-valued; a present key whose value is JSON
`null` is not modelled) and its top-level timestamps. -/
structure HsItem where
  id : Option String
  properties : List (String × String)
  createdAt : Option String
  updatedAt : Option String

/-- `properties.get(k)`. -/
def propGet (properties : List (String × String)) (k : String) : Option String :=
  objGet properties k

/-- `parse_hubspot_datetime`: falsy input gives `None`, a trailing `Z` is
dropped.  The successful `datetime.strptime` call is abstracted to the
normalized timestamp text; inputs `strptime` would reject are not
modelled (no theorem below depends on timestamp values). -/
def parse_hubspot_datetime : Option String → Option String
  | none => none
  | some s =>
      if s = "" then none
      else some (if s.endsWith "Z" then s.dropRight 1 else s)

/-- Python `str.strip()`: drop leading and trailing whitespace. -/
def pyStrip (s : String) : String :=
  String.mk (((s.data.dropWhile Char.isWhitespace).reverse.dropWhile
    Char.isWhitespace).reverse)

/-- Python `str.capitalize`: first character uppercased, the rest
lowercased. -/
def pyCapitalize (s : String) : String :=
  (s.take 1).toUpper ++ (s.drop 1).toLower

/-- The dict returned by `create_integration_item_metadata_object`: the
`IntegrationItem.__dict__` plus the type-specific extra keys.  A key that
the code leaves absent for a given type and a key present with value
`None` are both modelled as `none`. -/
structure ItemDict where
  id : String
  type : String
  name : String
  creation_time : Option String
  last_modified_time : Option String
  url : Option String
  phone : Option String
  email : Option String
  domain : Option String
  amount : Option String
deriving DecidableEq

def create_integration_item_metadata_object (item : HsItem)
    (item_type : String) : ItemDict :=
  let item_id := item.id.getD ""
  let properties := item.properties
  let display_name :=
    if item_type = "contact" then
      let name := pyStrip ((propGet properties "firstname").getD "" ++ " "
                    ++ (propGet properties "lastname").getD "")
      let name :=
        if name = "" then (propGet properties "email").getD ("Contact " ++ item_id)
        else name
      let email := propGet properties "email"
      if truthyStr email then name ++ " (" ++ email.getD "" ++ ")" else name
    else if item_type = "company" then
      let name := (propGet properties "name").getD ("Company " ++ item_id)
      let domain := propGet properties "domain"
      if truthyStr domain then name ++ " (" ++ domain.getD "" ++ ")" else name
    else if item_type = "deal" then
      let name := (propGet properties "dealname").getD ("Deal " ++ item_id)
      let amount := propGet properties "amount"
      if truthyStr amount then name ++ " ($" ++ amount.getD "" ++ ")" else name
    else
      pyCapitalize item_type ++ " " ++ item_id
  ⟨item_id ++ "_" ++ item_type, item_type, display_name,
   parse_hubspot_datetime item.createdAt,
   parse_hubspot_datetime item.updatedAt,
   none,
   if item_type = "contact" ∨ item_type = "company" then propGet properties "phone"
   else none,
   if item_type = "contact" then propGet properties "email" else none,
   if item_type = "company" then propGet properties "domain" else none,
   if item_type = "deal" then propGet properties "amount" else none⟩

/-- The fetcher's outcome: the normalized items or the raised
`HTTPException`, with the number of list endpoints actually called (the
calls are sequential, so a failing endpoint stops the later ones). -/
structure FetchResult where
  result : Except (Nat × String) (List ItemDict)
  endpointCalls : Nat

/-- `get_items_hubspot`.  `credentialsJson` is the outcome of
`json.loads` on the credentials argument; each of the three endpoint
arguments is the outcome of the corresponding GET — `.error` for an
`httpx.HTTPError`, `.ok` for the parsed `results` list. -/
def get_items_hubspot (credentialsJson : Except Unit Credentials)
    (contactsResp companiesResp dealsResp : Except Unit (List HsItem)) :
    FetchResult :=
  match credentialsJson with
  | .error _ => ⟨.error (400, "Invalid credentials format"), 0⟩
  | .ok credentials =>
    if ¬ truthyStr credentials.access_token then
      ⟨.error (400, "Invalid credentials: missing access token"), 0⟩
    else
      match contactsResp with
      | .error _ => ⟨.error (400, "Failed to fetch HubSpot data"), 1⟩
      | .ok contacts =>
        match companiesResp with
        | .error _ => ⟨.error (400, "Failed to fetch HubSpot data"), 2⟩
        | .ok companies =>
          match dealsResp with
          | .error _ => ⟨.error (400, "Failed to fetch HubSpot data"), 3⟩
          | .ok deals =>
            ⟨.ok ((contacts.map fun it =>
                     create_integration_item_metadata_object it "contact") ++
                  (companies.map fun it =>
                     create_integration_item_metadata_object it "company") ++
                  (deals.map fun it =>
                     create_integration_item_metadata_object it "deal")), 3⟩

/-- C3: for every stored credential record containing `created_at` and
`expires_in`, if `now < created_at + expires_in` then
`get_hubspot_credentials` returns the record exactly as stored, performs
no refresh call and no cache write. -/
theorem hubspot_credentials_unexpired_unchanged
    (user_id org_id : String) (cache : String → Option Credentials)
    (now : Int) (refresh : Except Unit Credentials) (now2 : Int)
    (c : Credentials) (ca ei : Int)
    (hcache : cache ("hubspot_credentials:" ++ org_id ++ ":" ++ user_id) = some c)
    (hca : c.created_at = some ca) (hei : c.expires_in = some ei)
    (hlt : now < ca + ei) :
    get_hubspot_credentials user_id org_id cache now refresh now2 =
      ⟨.ok c, 0, none⟩ := by
  simp only [get_hubspot_credentials, hcache]
  by_cases htr : truthyInt c.expires_in = true ∧ truthyInt c.created_at = true
  · rw [if_pos htr, hca, hei]
    simp only [Option.getD_some]
    rw [if_neg (by omega)]
  · rw [if_neg htr]

/-- A sample stored credential record used as concrete test input. -/
def cred1 : Credentials := ⟨some "at", some "rt", some 1800, some 50, []⟩

/-- A Redis content holding `cred1` under the key for user `u1` of
organization `o1`. -/
def cache1 : String → Option Credentials :=
  fun k => if k = "hubspot_credentials:o1:u1" then some cred1 else none

/-- A sample token-endpoint response used as concrete test input. -/
def fresh1 : Credentials := ⟨some "at2", some "rt2", some 1800, none, []⟩

theorem hubspot_credentials_unexpired_unchanged_witness :
    cache1 ("hubspot_credentials:" ++ "o1" ++ ":" ++ "u1") = some cred1
    ∧ cred1.created_at = some 50 ∧ cred1.expires_in = some 1800
    ∧ (100 : Int) < 50 + 1800
    ∧ get_hubspot_credentials "u1" "o1" cache1 100 (.ok fresh1) 100 =
        ⟨.ok cred1, 0, none⟩ :=
  ⟨by decide, rfl, rfl, by decide,
   hubspot_credentials_unexpired_unchanged "u1" "o1" cache1 100 (.ok fresh1) 100
     cred1 50 1800 (by decide) rfl rfl (by decide)⟩

/-- C2 counterexample: the record `{access_token: "at", refresh_token:
"rt", expires_in: 0, created_at: 1}` contains both `created_at` and
`expires_in`, and at `now = 100` it satisfies
`now ≥ created_at + expires_in`; the claim then demands exactly one
refresh call and a returned `created_at ≥ now`, but the accessor performs
no refresh call and returns the stale record unchanged, because Python's
truthiness test `credentials.get('expires_in') and
credentials.get('created_at')` treats the present value `0` as falsy. -/
theorem hubspot_credentials_zero_expires_in_not_refreshed :
    (1 : Int) + 0 ≤ 100 ∧
    get_hubspot_credentials "u" "o"
      (fun k => if k = "hubspot_credentials:o:u"
         then some ⟨some "at", some "rt", some 0, some 1, []⟩ else none)
      100 (.ok ⟨some "at2", some "rt2", some 1800, none, []⟩) 100 =
      ⟨.ok ⟨some "at", some "rt", some 0, some 1, []⟩, 0, none⟩ := by
  constructor
  · decide
  · decide

/-- C2 (amended): for every stored credential record whose `created_at`
and `expires_in` are present and nonzero and whose `refresh_token` is
present, if `now ≥ created_at + expires_in` and the refresh POST
succeeds, then `get_hubspot_credentials` performs exactly one refresh
call, returns a record whose `created_at` is the refresh-time clock value
(`≥ now` as the clock is monotone), and re-stores that record under
`hubspot_credentials:{org_id}:{user_id}` with TTL 3600 seconds. -/
theorem hubspot_credentials_expired_refresh
    (user_id org_id : String) (cache : String → Option Credentials)
    (now : Int) (refresh : Except Unit Credentials) (now2 : Int)
    (c fresh : Credentials) (ca ei : Int) (rt : String)
    (hcache : cache ("hubspot_credentials:" ++ org_id ++ ":" ++ user_id) = some c)
    (hca : c.created_at = some ca) (hcaNZ : ca ≠ 0)
    (hei : c.expires_in = some ei) (heiNZ : ei ≠ 0)
    (hrt : c.refresh_token = some rt)
    (hexp : ca + ei ≤ now)
    (href : refresh = .ok fresh)
    (hmono : now ≤ now2) :
    ∃ t ca2,
      (get_hubspot_credentials user_id org_id cache now refresh now2).result = .ok t
      ∧ t.created_at = some ca2 ∧ now ≤ ca2
      ∧ (get_hubspot_credentials user_id org_id cache now refresh now2).refreshCalls = 1
      ∧ (get_hubspot_credentials user_id org_id cache now refresh now2).write =
          some ⟨"hubspot_credentials:" ++ org_id ++ ":" ++ user_id, t, 3600⟩ := by
  refine ⟨{ fresh with created_at := some now2 }, now2, ?_, rfl, hmono, ?_, ?_⟩ <;>
  · simp only [get_hubspot_credentials, hcache, hrt, href]
    rw [if_pos ⟨by simp [truthyInt, hei, heiNZ], by simp [truthyInt, hca, hcaNZ]⟩,
        hca, hei]
    simp only [Option.getD_some]
    rw [if_pos (by omega)]

theorem hubspot_credentials_expired_refresh_witness :
    cache1 ("hubspot_credentials:" ++ "o1" ++ ":" ++ "u1") = some cred1
    ∧ cred1.refresh_token = some "rt"
    ∧ (50 : Int) + 1800 ≤ 2000
    ∧ ∃ t ca2,
        (get_hubspot_credentials "u1" "o1" cache1 2000 (.ok fresh1) 2001).result = .ok t
        ∧ t.created_at = some ca2 ∧ (2000 : Int) ≤ ca2
        ∧ (get_hubspot_credentials "u1" "o1" cache1 2000 (.ok fresh1) 2001).refreshCalls = 1
        ∧ (get_hubspot_credentials "u1" "o1" cache1 2000 (.ok fresh1) 2001).write =
            some ⟨"hubspot_credentials:" ++ "o1" ++ ":" ++ "u1", t, 3600⟩ :=
  ⟨by decide, rfl, by decide,
   hubspot_credentials_expired_refresh "u1" "o1" cache1 2000 (.ok fresh1) 2001
     cred1 fresh1 50 1800 "rt" (by decide) rfl (by decide) rfl (by decide) rfl
     (by decide) rfl (by decide)⟩

/-- Records failing the Python truthiness guard
`credentials.get('expires_in') and credentials.get('created_at')` are
returned as stored, with no refresh call and no write. -/
theorem credentials_not_truthy_unchanged
    (user_id org_id : String) (cache : String → Option Credentials)
    (now : Int) (refresh : Except Unit Credentials) (now2 : Int)
    (c : Credentials)
    (hcache : cache ("hubspot_credentials:" ++ org_id ++ ":" ++ user_id) = some c)
    (h : c.created_at = none ∨ c.expires_in = none) :
    get_hubspot_credentials user_id org_id cache now refresh now2 =
      ⟨.ok c, 0, none⟩ := by
  simp only [get_hubspot_credentials, hcache]
  rw [if_neg (by rcases h with h | h <;> simp [truthyInt, h])]

/-- C5: a stored credential record whose `created_at` or `expires_in` is
absent is returned unchanged with no refresh call and no cache write,
regardless of age; whatever credential record the callback writes is the
provider token response verbatim (in particular no `created_at` field is
added) with TTL 3600; and a record without `created_at`, as the callback
stores when the provider response lacks one, never triggers the refresh
branch of the accessor. -/
theorem hubspot_callback_store_and_missing_fields :
    (∀ (user_id org_id : String) (cache : String → Option Credentials)
        (now : Int) (refresh : Except Unit Credentials) (now2 : Int)
        (c : Credentials),
        cache ("hubspot_credentials:" ++ org_id ++ ":" ++ user_id) = some c →
        c.created_at = none ∨ c.expires_in = none →
        get_hubspot_credentials user_id org_id cache now refresh now2 =
          ⟨.ok c, 0, none⟩)
    ∧ (∀ (request : CallbackRequest) (cache : String → Option String)
          (exchange : Except Unit Credentials) (t : Credentials) (w : CredWrite),
          exchange = .ok t →
          (oauth2callback_hubspot request cache exchange).credWrite = some w →
          w.tokens = t ∧ w.expire = 3600)
    ∧ (∀ (user_id org_id : String) (cache : String → Option Credentials)
          (now : Int) (refresh : Except Unit Credentials) (now2 : Int)
          (t : Credentials),
          cache ("hubspot_credentials:" ++ org_id ++ ":" ++ user_id) = some t →
          t.created_at = none →
          get_hubspot_credentials user_id org_id cache now refresh now2 =
            ⟨.ok t, 0, none⟩) := by
  refine ⟨fun uid oid cc now refresh now2 c hc h =>
            credentials_not_truthy_unchanged uid oid cc now refresh now2 c hc h,
          ?_,
          fun uid oid cc now refresh now2 t hc h =>
            credentials_not_truthy_unchanged uid oid cc now refresh now2 t hc
              (Or.inl h)⟩
  intro request cache exchange t w hexch hw
  subst hexch
  unfold oauth2callback_hubspot at hw
  split at hw
  · simp at hw
  · split at hw
    · simp at hw
    · generalize ((decodeB64 (request.state.getD "").data).bind utf8DecodeAscii).bind
        parseJsonStrObj = pr at hw
      cases pr with
      | none => simp at hw
      | some sd =>
        simp only [] at hw
        generalize cache ("hubspot_state:" ++ optStr (objGet sd "org_id") ++ ":"
          ++ optStr (objGet sd "user_id")) = cv at hw
        cases cv with
        | none => simp at hw
        | some sv =>
          simp only [] at hw
          by_cases hsv : sv = ""
          · rw [if_pos hsv] at hw
            simp at hw
          · rw [if_neg hsv] at hw
            generalize parseJsonStrObj sv = pv at hw
            cases pv with
            | none => simp at hw
            | some saved =>
              simp only [] at hw
              by_cases hn : objGet sd "state" ≠ objGet saved "state"
              · rw [if_pos hn] at hw
                simp at hw
              · rw [if_neg hn] at hw
                simp only [Option.some.injEq] at hw
                subst hw
                exact ⟨rfl, rfl⟩

/-- Redis content holding `fresh1` (which has no `created_at`) as stored
credentials of user `u2` of organization `o2`. -/
def cache2 : String → Option Credentials :=
  fun k => if k = "hubspot_credentials:o2:u2" then some fresh1 else none

/-- The state blob `authorize_hubspot` would store for nonce `N`, user
`u`, organization `o`. -/
def stateBlob1 : String := jsonDumpsStateData ⟨"N", "u", "o"⟩

/-- Redis content holding `stateBlob1` under the state key of user `u`
of organization `o`. -/
def stateCache1 : String → Option String :=
  fun k => if k = "hubspot_state:o:u" then some stateBlob1 else none

/-- A callback request carrying a code and the base64url encoding of
`stateBlob1`. -/
def cbReq1 : CallbackRequest :=
  ⟨none, none, some "c0", some (String.mk (encodeB64 (strBytes stateBlob1)))⟩

theorem hubspot_callback_store_and_missing_fields_witness :
    (cache2 ("hubspot_credentials:" ++ "o2" ++ ":" ++ "u2") = some fresh1
      ∧ fresh1.created_at = none
      ∧ get_hubspot_credentials "u2" "o2" cache2 99999 (.ok cred1) 99999 =
          ⟨.ok fresh1, 0, none⟩)
    ∧ ((oauth2callback_hubspot cbReq1 stateCache1 (.ok fresh1)).credWrite =
          some ⟨"hubspot_credentials:o:u", fresh1, 3600⟩
      ∧ (⟨"hubspot_credentials:o:u", fresh1, 3600⟩ : CredWrite).tokens = fresh1
      ∧ (⟨"hubspot_credentials:o:u", fresh1, 3600⟩ : CredWrite).expire = 3600) :=
  ⟨⟨by decide, rfl,
    hubspot_callback_store_and_missing_fields.1 "u2" "o2" cache2 99999
      (.ok cred1) 99999 fresh1 (by decide) (Or.inl rfl)⟩,
   by decide,
   (hubspot_callback_store_and_missing_fields.2.1 cbReq1 stateCache1
      (.ok fresh1) fresh1 ⟨"hubspot_credentials:o:u", fresh1, 3600⟩ rfl
      (by decide)).1,
   (hubspot_callback_store_and_missing_fields.2.1 cbReq1 stateCache1
      (.ok fresh1) fresh1 ⟨"hubspot_credentials:o:u", fresh1, 3600⟩ rfl
      (by decide)).2⟩

/-- C10: when the stored record is expired (both fields present and
nonzero, `now ≥ created_at + expires_in`, `refresh_token` present) and
the refresh POST fails, `get_hubspot_credentials` raises a 400 error
after its single refresh call and performs no cache write; and in
general, under the same expiry conditions, any cache write it performs
carries the successfully refreshed tokens. -/
theorem hubspot_credentials_refresh_failure_no_write
    (user_id org_id : String) (cache : String → Option Credentials)
    (now now2 : Int) (c : Credentials) (ca ei : Int) (rt : String)
    (hcache : cache ("hubspot_credentials:" ++ org_id ++ ":" ++ user_id) = some c)
    (hca : c.created_at = some ca) (hcaNZ : ca ≠ 0)
    (hei : c.expires_in = some ei) (heiNZ : ei ≠ 0)
    (hrt : c.refresh_token = some rt)
    (hexp : ca + ei ≤ now) :
    get_hubspot_credentials user_id org_id cache now (.error ()) now2 =
      ⟨.httpError 400 "Failed to refresh HubSpot token", 1, none⟩
    ∧ (∀ (refresh : Except Unit Credentials) (w : CredWrite),
        (get_hubspot_credentials user_id org_id cache now refresh now2).write =
          some w →
        ∃ fresh, refresh = .ok fresh
          ∧ w.tokens = { fresh with created_at := some now2 }) := by
  constructor
  · simp only [get_hubspot_credentials, hcache, hrt]
    rw [if_pos ⟨by simp [truthyInt, hei, heiNZ], by simp [truthyInt, hca, hcaNZ]⟩,
        hca, hei]
    simp only [Option.getD_some]
    rw [if_pos (by omega)]
  · intro refresh w hw
    simp only [get_hubspot_credentials, hcache, hrt] at hw
    rw [if_pos ⟨by simp [truthyInt, hei, heiNZ], by simp [truthyInt, hca, hcaNZ]⟩,
        hca, hei] at hw
    simp only [Option.getD_some] at hw
    rw [if_pos (by omega)] at hw
    cases refresh with
    | error e => simp at hw
    | ok fresh =>
        simp only [Option.some.injEq] at hw
        exact ⟨fresh, rfl, by rw [← hw]⟩

theorem hubspot_credentials_refresh_failure_no_write_witness :
    cache1 ("hubspot_credentials:" ++ "o1" ++ ":" ++ "u1") = some cred1
    ∧ (50 : Int) + 1800 ≤ 2000
    ∧ get_hubspot_credentials "u1" "o1" cache1 2000 (.error ()) 2001 =
        ⟨.httpError 400 "Failed to refresh HubSpot token", 1, none⟩
    ∧ ∃ fresh, (.ok fresh1 : Except Unit Credentials) = .ok fresh
        ∧ (⟨"hubspot_credentials:" ++ "o1" ++ ":" ++ "u1",
              ⟨some "at2", some "rt2", some 1800, some 2001, []⟩, 3600⟩ : CredWrite).tokens
            = { fresh with created_at := some 2001 } :=
  ⟨by decide, by decide,
   (hubspot_credentials_refresh_failure_no_write "u1" "o1" cache1 2000 2001 cred1
      50 1800 "rt" (by decide) rfl (by decide) rfl (by decide) rfl (by decide)).1,
   (hubspot_credentials_refresh_failure_no_write "u1" "o1" cache1 2000 2001 cred1
      50 1800 "rt" (by decide) rfl (by decide) rfl (by decide) rfl (by decide)).2
     (.ok fresh1)
     ⟨"hubspot_credentials:" ++ "o1" ++ ":" ++ "u1",
       ⟨some "at2", some "rt2", some 1800, some 2001, []⟩, 3600⟩ (by decide)⟩

/-- C4 counterexample: for a contact whose firstname and lastname
properties are empty strings and whose email property is `a@b.c`, the
display name is `"a@b.c (a@b.c)"`, not the email string: the code falls
back to the email as the base name and then, the email being truthy,
appends it again in parentheses. -/
theorem hubspot_contact_empty_name_display_cx :
    (create_integration_item_metadata_object
       ⟨some "7", [("firstname", ""), ("lastname", ""), ("email", "a@b.c")],
        none, none⟩ "contact").name = "a@b.c (a@b.c)"
    ∧ (create_integration_item_metadata_object
       ⟨some "7", [("firstname", ""), ("lastname", ""), ("email", "a@b.c")],
        none, none⟩ "contact").name ≠ "a@b.c" := by
  constructor
  · decide
  · decide

/-- C4 (amended): for every contact record whose firstname and lastname
properties are empty or absent and whose email property is present and
nonempty, the display name is the email followed by the email in
parentheses, `email ++ " (" ++ email ++ ")"`. -/
theorem hubspot_contact_email_display (item : HsItem) (e : String)
    (hfn : (propGet item.properties "firstname").getD "" = "")
    (hln : (propGet item.properties "lastname").getD "" = "")
    (he : propGet item.properties "email" = some e) (hne : e ≠ "") :
    (create_integration_item_metadata_object item "contact").name =
      e ++ " (" ++ e ++ ")" := by
  have htrim : pyStrip (("" : String) ++ " " ++ "") = "" := by decide
  have htrim2 : pyStrip (" " : String) = "" := by decide
  simp [create_integration_item_metadata_object, hfn, hln, he, htrim, htrim2,
    truthyStr, hne]

theorem hubspot_contact_email_display_witness :
    (propGet [("firstname", ""), ("email", "x@y.z")] "firstname").getD "" = ""
    ∧ (propGet [("firstname", ""), ("email", "x@y.z")] "lastname").getD "" = ""
    ∧ propGet [("firstname", ""), ("email", "x@y.z")] "email" = some "x@y.z"
    ∧ ("x@y.z" : String) ≠ ""
    ∧ (create_integration_item_metadata_object
        ⟨some "9", [("firstname", ""), ("email", "x@y.z")], none, none⟩
        "contact").name = "x@y.z" ++ " (" ++ "x@y.z" ++ ")" :=
  ⟨by decide, by decide, by decide, by decide,
   hubspot_contact_email_display
     ⟨some "9", [("firstname", ""), ("email", "x@y.z")], none, none⟩ "x@y.z"
     (by decide) (by decide) (by decide) (by decide)⟩

/-- C8: for every company record with a name property and no domain
property, the display name is the company name alone, with no appended
suffix. -/
theorem hubspot_company_no_domain_display (item : HsItem) (n : String)
    (hname : propGet item.properties "name" = some n)
    (hdom : propGet item.properties "domain" = none) :
    (create_integration_item_metadata_object item "company").name = n := by
  simp [create_integration_item_metadata_object, hname, hdom, truthyStr]

theorem hubspot_company_no_domain_display_witness :
    propGet [("name", "Acme")] "name" = some "Acme"
    ∧ propGet [("name", "Acme")] "domain" = none
    ∧ (create_integration_item_metadata_object
        ⟨some "c1", [("name", "Acme")], none, none⟩ "company").name = "Acme" :=
  ⟨by decide, by decide,
   hubspot_company_no_domain_display
     ⟨some "c1", [("name", "Acme")], none, none⟩ "Acme" (by decide) (by decide)⟩

/-- C9: for every provider record with an id and every item type, the
produced item's id is the provider id followed by an underscore and the
type string, and its type field equals the given type. -/
theorem hubspot_item_id_composite (item : HsItem) (item_type i : String)
    (hid : item.id = some i) :
    (create_integration_item_metadata_object item item_type).id =
      i ++ "_" ++ item_type
    ∧ (create_integration_item_metadata_object item item_type).type =
        item_type := by
  constructor <;> simp [create_integration_item_metadata_object, hid]

theorem hubspot_item_id_composite_witness :
    (⟨some "42", [("name", "A")], none, none⟩ : HsItem).id = some "42"
    ∧ (create_integration_item_metadata_object
        ⟨some "42", [("name", "A")], none, none⟩ "deal").id = "42" ++ "_" ++ "deal"
    ∧ (create_integration_item_metadata_object
        ⟨some "42", [("name", "A")], none, none⟩ "deal").type = "deal" :=
  ⟨rfl,
   (hubspot_item_id_composite ⟨some "42", [("name", "A")], none, none⟩
      "deal" "42" rfl).1,
   (hubspot_item_id_composite ⟨some "42", [("name", "A")], none, none⟩
      "deal" "42" rfl).2⟩

/-- C6: with parseable credentials carrying an access token, if any of
the three list endpoints fails the whole fetch aborts with a single 400
error and no item list is returned; when all three succeed, the returned
list is all normalized contacts first, then all companies, then all
deals. -/
theorem hubspot_fetch_all_or_nothing
    (credentialsJson : Except Unit Credentials) (creds : Credentials)
    (contactsResp companiesResp dealsResp : Except Unit (List HsItem))
    (hcj : credentialsJson = .ok creds)
    (htok : truthyStr creds.access_token = true) :
    ((contactsResp = .error () ∨ companiesResp = .error ()
        ∨ dealsResp = .error ()) →
      (get_items_hubspot credentialsJson contactsResp companiesResp
          dealsResp).result = .error (400, "Failed to fetch HubSpot data"))
    ∧ (∀ contacts companies deals,
        contactsResp = .ok contacts → companiesResp = .ok companies →
        dealsResp = .ok deals →
        (get_items_hubspot credentialsJson contactsResp companiesResp
            dealsResp).result =
          .ok ((contacts.map fun it =>
                  create_integration_item_metadata_object it "contact") ++
               (companies.map fun it =>
                  create_integration_item_metadata_object it "company") ++
               (deals.map fun it =>
                  create_integration_item_metadata_object it "deal"))) := by
  subst hcj
  constructor
  · intro h
    simp only [get_items_hubspot]
    rw [if_neg (by simp [htok])]
    rcases h with h | h | h
    · subst h
      rfl
    · subst h
      cases contactsResp with
      | error e => rfl
      | ok cs => rfl
    · subst h
      cases contactsResp with
      | error e => rfl
      | ok cs =>
        cases companiesResp with
        | error e => rfl
        | ok ms => rfl
  · intro cs ms ds h1 h2 h3
    subst h1
    subst h2
    subst h3
    simp only [get_items_hubspot]
    rw [if_neg (by simp [htok])]

theorem hubspot_fetch_all_or_nothing_witness :
    ((.ok cred1 : Except Unit Credentials) = .ok cred1)
    ∧ truthyStr cred1.access_token = true
    ∧ (get_items_hubspot (.ok cred1) (.ok []) (.ok []) (.error ())).result =
        .error (400, "Failed to fetch HubSpot data")
    ∧ (get_items_hubspot (.ok cred1) (.ok []) (.ok []) (.ok [])).result =
        .ok ((([] : List HsItem).map fun it =>
                create_integration_item_metadata_object it "contact") ++
             (([] : List HsItem).map fun it =>
                create_integration_item_metadata_object it "company") ++
             (([] : List HsItem).map fun it =>
                create_integration_item_metadata_object it "deal")) :=
  ⟨rfl, by decide,
   (hubspot_fetch_all_or_nothing (.ok cred1) cred1 (.ok []) (.ok [])
      (.error ()) rfl (by decide)).1 (Or.inr (Or.inr rfl)),
   (hubspot_fetch_all_or_nothing (.ok cred1) cred1 (.ok []) (.ok [])
      (.ok []) rfl (by decide)).2 [] [] [] rfl rfl rfl⟩

theorem plainChar_lt_128 (c : Char) (h : plainChar c = true) : c.toNat < 128 := by
  unfold plainChar at h
  simp only [Bool.and_eq_true, decide_eq_true_eq] at h
  omega

theorem mem_ascii_lit {l : List Char} {c : Char} (hc : c ∈ l)
    (hall : l.all (fun c => decide (c.toNat < 128)) = true) :
    c.toNat < 128 := by
  simpa using List.all_eq_true.mp hall c hc

/-- Every character of the serialized state blob is ASCII when the three
fields are plain. -/
theorem jsonDumpsStateData_ascii (d : StateData)
    (h1 : plainStr d.state = true) (h2 : plainStr d.user_id = true)
    (h3 : plainStr d.org_id = true) :
    ∀ c ∈ (jsonDumpsStateData d).data, c.toNat < 128 := by
  intro c hc
  unfold jsonDumpsStateData jsonDumpsStr at hc
  unfold plainStr at h1 h2 h3
  rw [jsonEscapeList_plain _ h1, jsonEscapeList_plain _ h2,
      jsonEscapeList_plain _ h3] at hc
  simp only [String.data_append, List.mem_append] at hc
  casesm* _ ∨ _
  all_goals
    rename_i h
    first
    | exact plainChar_lt_128 _ (List.all_eq_true.mp h1 _ h)
    | exact plainChar_lt_128 _ (List.all_eq_true.mp h2 _ h)
    | exact plainChar_lt_128 _ (List.all_eq_true.mp h3 _ h)
    | exact mem_ascii_lit h (by decide)

/-- C7: for every user id, organization id and nonce (of characters that
`json.dumps` renders as themselves), `authorize_hubspot` stores the state
blob under `hubspot_state:{org_id}:{user_id}` with TTL 600 seconds, and
the returned URL carries a `state` query parameter whose base64url
decoding is exactly the stored blob, which contains the given user id and
organization id. -/
theorem hubspot_authorize_state_roundtrip (user_id org_id nonce : String)
    (h1 : plainStr nonce = true) (h2 : plainStr user_id = true)
    (h3 : plainStr org_id = true) :
    (authorize_hubspot user_id org_id nonce).stateWrite.key =
      "hubspot_state:" ++ org_id ++ ":" ++ user_id
    ∧ (authorize_hubspot user_id org_id nonce).stateWrite.expire = 600
    ∧ (∃ p : String,
        (authorize_hubspot user_id org_id nonce).auth_url =
          "https://app.hubspot.com/oauth/authorize?client_id=" ++ CLIENT_ID
            ++ "&redirect_uri=" ++ REDIRECT_URI
            ++ "&scope=" ++ String.intercalate " " SCOPES
            ++ "&state=" ++ p
        ∧ decodeB64 p.data =
            some (strBytes
              (authorize_hubspot user_id org_id nonce).stateWrite.value))
    ∧ (∃ s1 s2, (authorize_hubspot user_id org_id nonce).stateWrite.value =
          s1 ++ user_id ++ s2)
    ∧ (∃ s3 s4, (authorize_hubspot user_id org_id nonce).stateWrite.value =
          s3 ++ org_id ++ s4) := by
  refine ⟨rfl, rfl,
    ⟨String.mk (encodeB64 (strBytes (jsonDumpsStateData ⟨nonce, user_id, org_id⟩))),
     rfl, ?_⟩, ?_, ?_⟩
  · show decodeB64 (encodeB64 (strBytes (jsonDumpsStateData ⟨nonce, user_id, org_id⟩)))
        = some (strBytes (jsonDumpsStateData ⟨nonce, user_id, org_id⟩))
    refine decodeB64_encodeB64 _ ?_
    intro b hb
    simp only [strBytes, List.mem_map] at hb
    obtain ⟨c, hc, rfl⟩ := hb
    have := jsonDumpsStateData_ascii ⟨nonce, user_id, org_id⟩ h1 h2 h3 c hc
    omega
  · refine ⟨"\x7b\"state\": " ++ ("\"" ++ String.mk (jsonEscapeList nonce.data) ++ "\"")
        ++ ", \"user_id\": " ++ "\"",
      "\"" ++ ", \"org_id\": " ++ ("\"" ++ String.mk (jsonEscapeList org_id.data) ++ "\"")
        ++ "\x7d", ?_⟩
    show jsonDumpsStateData ⟨nonce, user_id, org_id⟩ = _
    unfold plainStr at h2
    unfold jsonDumpsStateData jsonDumpsStr
    rw [jsonEscapeList_plain _ h2]
    apply String.ext
    simp [String.data_append, List.append_assoc]
  · refine ⟨"\x7b\"state\": " ++ ("\"" ++ String.mk (jsonEscapeList nonce.data) ++ "\"")
        ++ ", \"user_id\": " ++ ("\"" ++ String.mk (jsonEscapeList user_id.data) ++ "\"")
        ++ ", \"org_id\": " ++ "\"",
      "\"" ++ "\x7d", ?_⟩
    show jsonDumpsStateData ⟨nonce, user_id, org_id⟩ = _
    unfold plainStr at h3
    unfold jsonDumpsStateData jsonDumpsStr
    rw [jsonEscapeList_plain _ h3]
    apply String.ext
    simp [String.data_append, List.append_assoc]

theorem hubspot_authorize_state_roundtrip_witness :
    plainStr "N" = true ∧ plainStr "u1" = true ∧ plainStr "o1" = true
    ∧ ((authorize_hubspot "u1" "o1" "N").stateWrite.key =
        "hubspot_state:" ++ "o1" ++ ":" ++ "u1"
      ∧ (authorize_hubspot "u1" "o1" "N").stateWrite.expire = 600
      ∧ (∃ p : String,
          (authorize_hubspot "u1" "o1" "N").auth_url =
            "https://app.hubspot.com/oauth/authorize?client_id=" ++ CLIENT_ID
              ++ "&redirect_uri=" ++ REDIRECT_URI
              ++ "&scope=" ++ String.intercalate " " SCOPES
              ++ "&state=" ++ p
          ∧ decodeB64 p.data =
              some (strBytes (authorize_hubspot "u1" "o1" "N").stateWrite.value))
      ∧ (∃ s1 s2, (authorize_hubspot "u1" "o1" "N").stateWrite.value =
            s1 ++ "u1" ++ s2)
      ∧ (∃ s3 s4, (authorize_hubspot "u1" "o1" "N").stateWrite.value =
            s3 ++ "o1" ++ s4)) :=
  ⟨by decide, by decide, by decide,
   hubspot_authorize_state_roundtrip "u1" "o1" "N" (by decide) (by decide)
     (by decide)⟩

/-- The same JSON object as the cached blob `stateBlob1`, with the keys
in a different order: a byte string differing from the cached value that
still parses to an object with the same nonce. -/
def altStateBlob : String :=
  "\x7b\"user_id\": \"u\", \"org_id\": \"o\", \"state\": \"N\"\x7d"

/-- A callback request carrying the base64url encoding of `altStateBlob`. -/
def cbReqAlt : CallbackRequest :=
  ⟨none, none, some "c0", some (String.mk (encodeB64 (strBytes altStateBlob)))⟩

/-- C1 counterexample: a callback whose `state` parameter decodes to
`altStateBlob` — a byte string differing from the cached blob — passes
validation and proceeds to the code-for-token exchange, because the
handler compares only the `state` (nonce) field of the two parsed
objects, not the blobs byte for byte. -/
theorem hubspot_callback_not_bytewise_cx :
    (decodeB64 (String.mk (encodeB64 (strBytes altStateBlob))).data).bind
        utf8DecodeAscii = some altStateBlob
    ∧ stateCache1 ("hubspot_state:o:u") = some stateBlob1
    ∧ altStateBlob ≠ stateBlob1
    ∧ (oauth2callback_hubspot cbReqAlt stateCache1 (.ok fresh1)).status = .ok
    ∧ (oauth2callback_hubspot cbReqAlt stateCache1 (.ok fresh1)).exchanged =
        true :=
  ⟨by decide, by decide, by decide, by decide, by decide⟩

/-- C1 (amended): the handler validates only the `state` (nonce) field of
the decoded blob against the nonce field of the cached blob: whenever the
two nonce fields differ, it raises a 400 error and performs no token
exchange, no credential write and no state delete.  (Two blobs that
differ in other bytes but agree on the nonce field both pass.) -/
theorem hubspot_callback_nonce_mismatch_aborts
    (request : CallbackRequest) (cache : String → Option String)
    (exchange : Except Unit Credentials)
    (sd saved : List (String × String)) (sv : String)
    (herr : request.error = none)
    (hcode : truthyStr request.code = true)
    (hstate : truthyStr request.state = true)
    (hdec : ((decodeB64 (request.state.getD "").data).bind utf8DecodeAscii).bind
        parseJsonStrObj = some sd)
    (hcache : cache ("hubspot_state:" ++ optStr (objGet sd "org_id") ++ ":"
        ++ optStr (objGet sd "user_id")) = some sv)
    (hsv : sv ≠ "")
    (hparse : parseJsonStrObj sv = some saved)
    (hnonce : objGet sd "state" ≠ objGet saved "state") :
    oauth2callback_hubspot request cache exchange =
      ⟨.httpError 400 "State validation failed", false, none, none⟩ := by
  unfold oauth2callback_hubspot
  rw [if_neg (by simp [herr])]
  rw [if_neg (not_not_intro ⟨hcode, hstate⟩)]
  rw [hdec]
  simp only []
  rw [hcache]
  simp only []
  rw [if_neg hsv, hparse]
  simp only []
  rw [if_pos hnonce]

/-- A callback request whose encoded state carries nonce `M` while the
cache still holds the blob with nonce `N`. -/
def cbReqBadNonce : CallbackRequest :=
  ⟨none, none, some "c0",
   some (String.mk (encodeB64 (strBytes (jsonDumpsStateData ⟨"M", "u", "o"⟩))))⟩

theorem hubspot_callback_nonce_mismatch_aborts_witness :
    cbReqBadNonce.error = none
    ∧ truthyStr cbReqBadNonce.code = true
    ∧ truthyStr cbReqBadNonce.state = true
    ∧ ((decodeB64 (cbReqBadNonce.state.getD "").data).bind utf8DecodeAscii).bind
        parseJsonStrObj = some [("state", "M"), ("user_id", "u"), ("org_id", "o")]
    ∧ stateCache1 ("hubspot_state:"
        ++ optStr (objGet [("state", "M"), ("user_id", "u"), ("org_id", "o")] "org_id")
        ++ ":"
        ++ optStr (objGet [("state", "M"), ("user_id", "u"), ("org_id", "o")] "user_id")) =
        some stateBlob1
    ∧ stateBlob1 ≠ ""
    ∧ parseJsonStrObj stateBlob1 =
        some [("state", "N"), ("user_id", "u"), ("org_id", "o")]
    ∧ objGet [("state", "M"), ("user_id", "u"), ("org_id", "o")] "state" ≠
        objGet [("state", "N"), ("user_id", "u"), ("org_id", "o")] "state"
    ∧ oauth2callback_hubspot cbReqBadNonce stateCache1 (.ok fresh1) =
        ⟨.httpError 400 "State validation failed", false, none, none⟩ :=
  ⟨rfl, by decide, by decide, by decide, by decide, by decide, by decide,
   by decide,
   hubspot_callback_nonce_mismatch_aborts cbReqBadNonce stateCache1 (.ok fresh1)
     [("state", "M"), ("user_id", "u"), ("org_id", "o")]
     [("state", "N"), ("user_id", "u"), ("org_id", "o")] stateBlob1
     rfl (by decide) (by decide) (by decide) (by decide) (by decide)
     (by decide) (by decide)⟩
